import Mathlib

/-!
Verification of the Alani AST-construction stage (`src/ast/...`).

The Rust sources are shallowly embedded here:
* strings are modelled at the character level (`String` / `List Char`); the
  tokens of interest are ASCII-delimited, where Rust's byte-level slicing
  agrees with the character-level model;
* fallible code returns `Except CompilerError`; code that can also panic
  (`unwrap`-style indexing, `unreachable!`) is modelled with `Option` /
  a dedicated `Res` result type whose `panic` constructor stands for a panic;
* the external pest token tree (`Pair<Rule>`) is modelled by the `Pair`
  inductive; the external tokenizer is a function parameter of `to_ast`.
-/

namespace Alani

-- ====================== data model (src/ast/types.rs) ======================

inductive SymbolKind where
  | Space | Newline | Vertical | Return | Tab | Null | Whitespace
  | Alphabetic | Alphanumeric | Char | Digit | Word | Feed | Backspace
  | Boundary
deriving DecidableEq, Repr

structure Symbol where
  kind : SymbolKind
  negated : Bool
deriving DecidableEq, Repr

inductive QuantifierKind where
  | Range : Nat → Nat → QuantifierKind
  | Some : QuantifierKind
  | Any : QuantifierKind
  | Over : Nat → QuantifierKind
  | Option : QuantifierKind
  | Amount : Nat → QuantifierKind
deriving DecidableEq, Repr

inductive Expression where
  | Atom : String → Expression
  | Symbol : Symbol → Expression
deriving DecidableEq, Repr

structure Quantifier where
  kind : QuantifierKind
  lazy : Bool
  expression : Expression
deriving DecidableEq, Repr

inductive AlaniAstNode where
  | Quantifier : Quantifier → AlaniAstNode
  | Atom : String → AlaniAstNode
  | Symbol : Symbol → AlaniAstNode
  | Skip : AlaniAstNode
deriving DecidableEq, Repr

inductive AlaniAst where
  | Root : List AlaniAstNode → AlaniAst
  | Empty : AlaniAst
deriving DecidableEq, Repr

-- ================== errors (crate::errors::CompilerError) ==================

/-- Modelled from the spec: `errors.rs` is not among the sources; §7 of the
spec enumerates the distinct named error kinds used by the AST builder. -/
inductive CompilerError where
  | MissingRootNode
  | MissingNode
  | UnrecognizedSyntax
  | UnrecognizedSymbol
  | NegativeStartNotAllowed
  | NegativeEndNotAllowed
  | UnexpectedQuantifierInQuantifier
  | UnexpectedSkippedNodeInQuantifier
deriving DecidableEq, Repr

/-- Result of a fallible computation that may also panic (Rust `unwrap`,
out-of-range slicing, `unreachable!`). `Res.panic` models a panic. -/
inductive Res (α : Type) where
  | ok : α → Res α
  | err : CompilerError → Res α
  | panic : Res α
deriving DecidableEq, Repr

-- =============== token tree (external pest `Pair<Rule>`) ===================

/-- Rule tags of the external grammar, as enumerated by the dispatch arms of
`create_ast_node` (implemented and commented-out ones) and the spec. -/
inductive Rule where
  | root | raw | literal | symbol | quantifier | EOI
  | range | group | assertion | negative_char_class
  | variable_invocation | variable_declaration
  | quantity
deriving DecidableEq, Repr

/-- A pest token: a rule tag, the raw matched text (`as_str`), and the ordered
child tokens (`into_inner`). -/
inductive Pair where
  | mk : Rule → String → List Pair → Pair

def Pair.rule : Pair → Rule
  | Pair.mk r _ _ => r

def Pair.str : Pair → String
  | Pair.mk _ s _ => s

def Pair.inner : Pair → List Pair
  | Pair.mk _ _ l => l

/-- The variable environment (`HashMap<String, AlaniAst>`); never read nor
written by the current code, so modelled as an association list. -/
def Env : Type := List (String × AlaniAst)

-- =================== constants (src/ast/constants.rs) ======================

/-- Modelled from the spec: `constants.rs` is not among the sources. The spec
describes `NOT` as the fixed negation-marker text compared for equality. -/
def NOT : String := "not"

/-- Modelled from the spec: `constants.rs` is not among the sources. The spec
describes `LAZY` as the lazy marker tested as a prefix of the quantity
token's raw text. -/
def LAZY : String := "lazy"

-- ======================= utils (src/ast/utils.rs) ==========================

def first_inner (pair : Pair) : Except CompilerError Pair :=
  match pair.inner.head? with
  | some p => Except.ok p
  | none => Except.error CompilerError.MissingNode

def last_inner (pair : Pair) : Except CompilerError Pair :=
  match pair.inner.getLast? with
  | some p => Except.ok p
  | none => Except.error CompilerError.MissingNode

def first_last_inner_str (pair : Pair) : Except CompilerError (String × String) :=
  match pair.inner.head?, pair.inner.getLast? with
  | some a, some b => Except.ok (a.str, b.str)
  | _, _ => Except.error CompilerError.MissingNode

/-- The reserved metacharacters of `RESERVED_CHARS` (a `HashSet` in the
source, an equivalent list here). -/
def RESERVED_CHARS : List Char :=
  ['[', ']', '(', ')', '\x7b', '\x7d', '*', '+', '?', '|', '^', '$', '.', '-', '\\']

/-- `escape_chars`: prefix every reserved character with a backslash,
character by character (the source's `for char in source.chars()` loop). -/
def escape_chars : List Char → List Char
  | [] => []
  | c :: rest =>
    if c ∈ RESERVED_CHARS then '\\' :: c :: escape_chars rest
    else c :: escape_chars rest

/-- Rust `str::replace` with a two-character pattern `[a, b]` and a
one-character replacement `r`: leftmost, non-overlapping. -/
def replace2 (a b r : Char) : List Char → List Char
  | x :: y :: rest =>
    if x = a ∧ y = b then r :: replace2 a b r rest
    else x :: replace2 a b r (y :: rest)
  | l => l

/-- Rust `str::replace` with a three-character pattern `[a, b, c]` and a
one-character replacement `r`: leftmost, non-overlapping. -/
def replace3 (a b c r : Char) : List Char → List Char
  | x :: y :: z :: rest =>
    if x = a ∧ y = b ∧ z = c then r :: replace3 a b c r rest
    else x :: replace3 a b c r (y :: z :: rest)
  | l => l

/-- Whether the two-character pattern `[a, b]` occurs in the list. -/
def occurs2 (a b : Char) : List Char → Bool
  | x :: y :: rest => (x = a ∧ y = b : Bool) || occurs2 a b (y :: rest)
  | _ => false

/-- `unquote_escape_raw`: `pair_str[1..len-1].replace("\\x60", "\x60")`
(backslash-backtick to backtick). The byte slicing panics when the text is
shorter than two characters; a panic is modelled as `none`. -/
def unquote_escape_raw (s : String) : Option String :=
  if 2 ≤ s.data.length then
    some (String.mk (replace2 '\\' '\x60' '\x60' ((s.data.drop 1).dropLast)))
  else none

/-- `unquote_escape_literal`: read the opening quote (defaulting to a double
quote on empty input), escape the whole raw text with `escape_chars`, strip
the first and last character of the escaped result, then replace the
three-character sequence backslash-backslash-quote matching the opening
quote by a bare quote. Slicing an escaped text shorter than two characters
panics, and a first character that is neither quote hits `unreachable!`;
both panics are modelled as `none`. -/
def unquote_escape_literal (s : String) : Option String :=
  let quote_type : Char := s.data.head?.getD '"'
  let pair_str : List Char := escape_chars s.data
  if 2 ≤ pair_str.length then
    let literal : List Char := (pair_str.drop 1).dropLast
    match quote_type with
    | '"' => some (String.mk (replace3 '\\' '\\' '"' '"' literal))
    | '\x27' => some (String.mk (replace3 '\\' '\\' '\x27' '\x27' literal))
    | _ => none
  else none

-- ================ AST construction (src/ast/source_to_ast.rs) ==============

/-- `parse_symbol`: read the first and last inner strings (negation marker
and symbol name), reject negated anchors, then look the name up in the
fifteen-arm match. -/
def parse_symbol (pair : Pair) : Except CompilerError AlaniAstNode :=
  match first_last_inner_str pair with
  | Except.error e => Except.error e
  | Except.ok (negStr, symbol) =>
    let negated : Bool := negStr == NOT
    if negated && (symbol == "start") then
      Except.error CompilerError.NegativeStartNotAllowed
    else if negated && (symbol == "end") then
      Except.error CompilerError.NegativeEndNotAllowed
    else
      match symbol with
      | "space" => Except.ok (AlaniAstNode.Symbol (Symbol.mk SymbolKind.Space negated))
      | "newline" => Except.ok (AlaniAstNode.Symbol (Symbol.mk SymbolKind.Newline negated))
      | "vertical" => Except.ok (AlaniAstNode.Symbol (Symbol.mk SymbolKind.Vertical negated))
      | "word" => Except.ok (AlaniAstNode.Symbol (Symbol.mk SymbolKind.Word negated))
      | "digit" => Except.ok (AlaniAstNode.Symbol (Symbol.mk SymbolKind.Digit negated))
      | "whitespace" => Except.ok (AlaniAstNode.Symbol (Symbol.mk SymbolKind.Whitespace negated))
      | "boundary" => Except.ok (AlaniAstNode.Symbol (Symbol.mk SymbolKind.Boundary negated))
      | "alphabetic" => Except.ok (AlaniAstNode.Symbol (Symbol.mk SymbolKind.Alphabetic negated))
      | "alphanumeric" => Except.ok (AlaniAstNode.Symbol (Symbol.mk SymbolKind.Alphanumeric negated))
      | "return" => Except.ok (AlaniAstNode.Symbol (Symbol.mk SymbolKind.Return negated))
      | "tab" => Except.ok (AlaniAstNode.Symbol (Symbol.mk SymbolKind.Tab negated))
      | "null" => Except.ok (AlaniAstNode.Symbol (Symbol.mk SymbolKind.Null negated))
      | "feed" => Except.ok (AlaniAstNode.Symbol (Symbol.mk SymbolKind.Feed negated))
      | "char" => Except.ok (AlaniAstNode.Symbol (Symbol.mk SymbolKind.Char negated))
      | "backspace" => Except.ok (AlaniAstNode.Symbol (Symbol.mk SymbolKind.Backspace negated))
      | _ => Except.error CompilerError.UnrecognizedSymbol

/-- The fifteen-entry table of recognized class names, in the order of the
match arms of `parse_symbol`. -/
def recognized_symbols : List (String × SymbolKind) :=
  [("space", SymbolKind.Space), ("newline", SymbolKind.Newline),
   ("vertical", SymbolKind.Vertical), ("word", SymbolKind.Word),
   ("digit", SymbolKind.Digit), ("whitespace", SymbolKind.Whitespace),
   ("boundary", SymbolKind.Boundary), ("alphabetic", SymbolKind.Alphabetic),
   ("alphanumeric", SymbolKind.Alphanumeric), ("return", SymbolKind.Return),
   ("tab", SymbolKind.Tab), ("null", SymbolKind.Null),
   ("feed", SymbolKind.Feed), ("char", SymbolKind.Char),
   ("backspace", SymbolKind.Backspace)]

/-- The expression-narrowing match inside `parse_quantifier`: only `Atom`
and `Symbol` are legal quantifier operands. -/
def narrow_expression (node : AlaniAstNode) : Except CompilerError Expression :=
  match node with
  | AlaniAstNode.Atom atom => Except.ok (Expression.Atom atom)
  | AlaniAstNode.Symbol symbol => Except.ok (Expression.Symbol symbol)
  | AlaniAstNode.Quantifier _ =>
    Except.error CompilerError.UnexpectedQuantifierInQuantifier
  | AlaniAstNode.Skip =>
    Except.error CompilerError.UnexpectedSkippedNodeInQuantifier

/-- Rust `s.starts_with(p)` at the character level (UTF-8 byte prefixes of
whole strings coincide with character-list prefixes). -/
def starts_with (s p : String) : Bool :=
  p.data.isPrefixOf s.data

/-- Decimal-digit parsing of a token text (computable model of
`str::parse::<u32>` restricted to plain digit strings). -/
def digits_to_nat? (s : String) : Option Nat :=
  if s.data = [] then none
  else
    s.data.foldl
      (fun acc c =>
        match acc with
        | some n => if '0' ≤ c ∧ c ≤ '9' then some (n * 10 + (c.toNat - 48)) else none
        | none => none)
      (some 0)

/-- Modelled from the spec: the tail of `parse_quantifier` (derivation of the
`QuantifierKind` from the kind sub-token) is missing from the sources, and
the grammar's quantity sub-rules are outside the excerpt. Following §3 and
§4.3: fixed keyword tokens yield `Some`/`Any`/`Option`, a bounded pair of
numbers yields `Range`, a single number yields `Amount`, and an over-token
with a number yields `Over`; inputs outside the grammar's quantity shapes
default to `Amount 0`. -/
def derive_quantifier_kind (kindTok : Pair) : QuantifierKind :=
  match digits_to_nat? kindTok.str with
  | some n => QuantifierKind.Amount n
  | none =>
    if kindTok.str = "some" then QuantifierKind.Some
    else if kindTok.str = "any" then QuantifierKind.Any
    else if kindTok.str = "option" then QuantifierKind.Option
    else
      match kindTok.inner.map (fun p => digits_to_nat? p.str) with
      | [some a, some b] => QuantifierKind.Range a b
      | [some n] => QuantifierKind.Over n
      | _ => QuantifierKind.Amount 0

mutual

/-- `create_ast_node`: dispatch on the token's rule tag. The quantifier arm
inlines `parse_quantifier` (see the standalone `parse_quantifier` below and
`create_ast_node_quantifier_eq`), with the source's
`create_ast_node(last_inner(pair)?)` expressed through the structurally
recursive helper `node_of_last`. -/
def create_ast_node (env : Env) : Pair → Res AlaniAstNode
  | Pair.mk r s inner =>
    match r with
    | Rule.raw =>
      match unquote_escape_raw s with
      | some t => Res.ok (AlaniAstNode.Atom t)
      | none => Res.panic
    | Rule.literal =>
      match unquote_escape_literal s with
      | some t => Res.ok (AlaniAstNode.Atom t)
      | none => Res.panic
    | Rule.symbol =>
      match parse_symbol (Pair.mk r s inner) with
      | Except.ok node => Res.ok node
      | Except.error e => Res.err e
    | Rule.quantifier =>
      match first_inner (Pair.mk r s inner) with
      | Except.error e => Res.err e
      | Except.ok quantity =>
        match first_inner quantity with
        | Except.error e => Res.err e
        | Except.ok kindTok =>
          match node_of_last env inner with
          | Res.panic => Res.panic
          | Res.err e => Res.err e
          | Res.ok node =>
            match narrow_expression node with
            | Except.error e => Res.err e
            | Except.ok expression =>
              Res.ok (AlaniAstNode.Quantifier
                (Quantifier.mk (derive_quantifier_kind kindTok)
                  (starts_with quantity.str LAZY) expression))
    | Rule.EOI => Res.ok AlaniAstNode.Skip
    | _ => Res.err CompilerError.UnrecognizedSyntax

/-- `create_ast_node(last_inner(pair)?, ...)` fused into one structural
recursion: the node of the last child, or `MissingNode` if there is none. -/
def node_of_last (env : Env) : List Pair → Res AlaniAstNode
  | [] => Res.err CompilerError.MissingNode
  | [p] => create_ast_node env p
  | _ :: q :: rest => node_of_last env (q :: rest)

end

/-- `parse_quantifier`, exactly as in the source, calling `create_ast_node`
on `last_inner`; `create_ast_node_quantifier_eq` identifies it with the
quantifier arm above. -/
def parse_quantifier (pair : Pair) (env : Env) : Res AlaniAstNode :=
  match first_inner pair with
  | Except.error e => Res.err e
  | Except.ok quantity =>
    match first_inner quantity with
    | Except.error e => Res.err e
    | Except.ok kindTok =>
      match last_inner pair with
      | Except.error e => Res.err e
      | Except.ok lastp =>
        match create_ast_node env lastp with
        | Res.panic => Res.panic
        | Res.err e => Res.err e
        | Res.ok node =>
          match narrow_expression node with
          | Except.error e => Res.err e
          | Except.ok expression =>
            Res.ok (AlaniAstNode.Quantifier
              (Quantifier.mk (derive_quantifier_kind kindTok)
                (starts_with quantity.str LAZY) expression))

/-- The accumulation loop of `pairs_to_ast`: build one node per token, in
order, aborting at the first error (the environment is never mutated by any
current arm, so it is passed unchanged). -/
def pairs_to_nodes (env : Env) : List Pair → Res (List AlaniAstNode)
  | [] => Res.ok []
  | p :: ps =>
    match create_ast_node env p with
    | Res.ok n =>
      match pairs_to_nodes env ps with
      | Res.ok ns => Res.ok (n :: ns)
      | Res.err e => Res.err e
      | Res.panic => Res.panic
    | Res.err e => Res.err e
    | Res.panic => Res.panic

/-- `pairs_to_ast`: wrap the collected nodes in `Root`. -/
def pairs_to_ast (pairs : List Pair) (env : Env) : Res AlaniAst :=
  match pairs_to_nodes env pairs with
  | Res.ok ns => Res.ok (AlaniAst.Root ns)
  | Res.err e => Res.err e
  | Res.panic => Res.panic

/-- Result of `to_ast`: the pest parse error (`AlaniParser::parse` failing)
is a distinct outcome from the `CompilerError` kinds. -/
inductive ToAstResult where
  | ok : AlaniAst → ToAstResult
  | pestError : ToAstResult
  | err : CompilerError → ToAstResult
  | panic : ToAstResult
deriving DecidableEq, Repr

/-- `to_ast`: empty source short-circuits to `Empty`; otherwise run the
external tokenizer (`AlaniParser::parse`, passed as a parameter), take the
first produced pair as the root or fail with `MissingRootNode`, and convert
its children with a fresh empty environment. -/
def to_ast (tokenize : String → Except Unit (List Pair)) (source : String) :
    ToAstResult :=
  if source = "" then ToAstResult.ok AlaniAst.Empty
  else
    match tokenize source with
    | Except.error _ => ToAstResult.pestError
    | Except.ok pairs =>
      match pairs.head? with
      | none => ToAstResult.err CompilerError.MissingRootNode
      | some root =>
        match pairs_to_ast root.inner [] with
        | Res.ok a => ToAstResult.ok a
        | Res.err e => ToAstResult.err e
        | Res.panic => ToAstResult.panic

-- =================== concrete tokens used by witnesses =====================

def witness_kind_tok : Pair := Pair.mk Rule.quantity "some" []

def witness_quantity_tok : Pair :=
  Pair.mk Rule.quantity "lazy some" [witness_kind_tok]

def witness_literal_tok : Pair := Pair.mk Rule.literal "\"ab\"" []

def witness_quantifier_tok : Pair :=
  Pair.mk Rule.quantifier "lazy some of \"ab\""
    [witness_quantity_tok, witness_literal_tok]

-- ============================ helper lemmas ================================

theorem escape_chars_length_ge (l : List Char) :
    l.length ≤ (escape_chars l).length := by
  induction l with
  | nil => simp [escape_chars]
  | cons c rest ih =>
    by_cases hc : c ∈ RESERVED_CHARS <;>
      simp only [escape_chars, hc, if_true, if_false, List.length_cons] <;> omega

theorem replace2_of_occurs2_eq_false (a b r : Char) (l : List Char)
    (h : occurs2 a b l = false) : replace2 a b r l = l := by
  induction l with
  | nil => rfl
  | cons x t ih =>
    cases t with
    | nil => rfl
    | cons y u =>
      simp only [occurs2, Bool.or_eq_false_iff, decide_eq_false_iff_not] at h
      simp only [replace2, if_neg h.1]
      rw [ih h.2]

theorem node_of_last_eq (env : Env) (l : List Pair) :
    node_of_last env l =
      match l.getLast? with
      | none => Res.err CompilerError.MissingNode
      | some p => create_ast_node env p := by
  induction l with
  | nil => rfl
  | cons a t ih =>
    cases t with
    | nil => rfl
    | cons b u =>
      rw [show node_of_last env (a :: b :: u) = node_of_last env (b :: u) from rfl,
        List.getLast?_cons_cons]
      exact ih

theorem create_ast_node_quantifier_eq (env : Env) (pair : Pair)
    (h : pair.rule = Rule.quantifier) :
    create_ast_node env pair = parse_quantifier pair env := by
  cases pair with
  | mk r s inner =>
    simp only [Pair.rule] at h
    subst h
    cases h1 : first_inner (Pair.mk Rule.quantifier s inner) with
    | error e => simp [create_ast_node, parse_quantifier, h1]
    | ok quantity =>
      cases h2 : first_inner quantity with
      | error e => simp [create_ast_node, parse_quantifier, h1, h2]
      | ok kindTok =>
        simp only [create_ast_node, parse_quantifier, h1, h2, last_inner,
          Pair.inner, node_of_last_eq]
        cases h3 : inner.getLast? with
        | none => rfl
        | some p => rfl

-- ============================ claim theorems ===============================

/-- Claim C1: for every literal token, the unescaper escapes every reserved
character of the full raw text with a backslash, strips the first and last
character of the escaped result, and restores only the escaped-quote
sequence matching the opening quote to a bare quote, leaving other escaped
reserved characters intact; in particular quoted text a.b unescapes to the
backslash-escaped form and an escaped delimiter is restored to a bare
quote. -/
theorem unquote_escape_literal_spec :
    (∀ s : String, s.data.head? = some '"' →
        unquote_escape_literal s =
          if 2 ≤ (escape_chars s.data).length then
            some (String.mk (replace3 '\\' '\\' '"' '"'
              (((escape_chars s.data).drop 1).dropLast)))
          else none) ∧
    (∀ s : String, s.data.head? = some '\x27' →
        unquote_escape_literal s =
          if 2 ≤ (escape_chars s.data).length then
            some (String.mk (replace3 '\\' '\\' '\x27' '\x27'
              (((escape_chars s.data).drop 1).dropLast)))
          else none) ∧
    (∀ l : List Char, escape_chars l =
        l.flatMap (fun c => if c ∈ RESERVED_CHARS then ['\\', c] else [c])) ∧
    unquote_escape_literal "\"a.b\"" = some "a\\.b" ∧
    unquote_escape_literal "\"a\\\"b\"" = some "a\"b" := by
  refine ⟨?_, ?_, ?_, by decide, by decide⟩
  · intro s h
    simp only [unquote_escape_literal, h]
    rfl
  · intro s h
    simp only [unquote_escape_literal, h]
    rfl
  · intro l
    induction l with
    | nil => rfl
    | cons c rest ih =>
      by_cases hc : c ∈ RESERVED_CHARS <;>
        simp [escape_chars, hc, ih]

/-- Witness for C1 at a concrete double-quoted token. -/
theorem unquote_escape_literal_spec_witness :
    unquote_escape_literal "\"a\"" = some "a" :=
  (unquote_escape_literal_spec.1 "\"a\"" rfl).trans (by decide)

/-- Claim C8: for every raw token, the unescaper strips the first and last
characters and replaces every escaped-backtick sequence by a literal
backtick, all other characters passing through verbatim. -/
theorem unquote_escape_raw_spec :
    (∀ s : String, 2 ≤ s.data.length →
        unquote_escape_raw s =
          some (String.mk (replace2 '\\' '\x60' '\x60' ((s.data.drop 1).dropLast)))) ∧
    (∀ s : String, 2 ≤ s.data.length →
        occurs2 '\\' '\x60' ((s.data.drop 1).dropLast) = false →
        unquote_escape_raw s = some (String.mk ((s.data.drop 1).dropLast))) ∧
    unquote_escape_raw "\x60a\\\x60b\x60" = some "a\x60b" := by
  refine ⟨?_, ?_, by decide⟩
  · intro s h
    simp only [unquote_escape_raw, if_pos h]
  · intro s h hocc
    simp only [unquote_escape_raw, if_pos h,
      replace2_of_occurs2_eq_false _ _ _ _ hocc]

/-- Witness for C8 at a concrete raw token with no escaped backtick. -/
theorem unquote_escape_raw_spec_witness :
    unquote_escape_raw "\x60ab\x60" = some "ab" :=
  (unquote_escape_raw_spec.2.1 "\x60ab\x60" (by decide) (by decide)).trans (by decide)

/-- Claim C10: the unescapers are not total — a token text shorter than two
characters makes the slicing panic, and a literal text whose first character
is neither quote hits the unreachable branch (both modelled as `none`) — but
under the precondition that tokens are well-delimited the panic branches are
unreachable and a result is always produced. -/
theorem unescape_totality :
    unquote_escape_raw "" = none ∧
    unquote_escape_raw "x" = none ∧
    unquote_escape_literal "" = none ∧
    unquote_escape_literal "\"" = none ∧
    unquote_escape_literal "\\\\" = none ∧
    (∀ s : String, 2 ≤ s.data.length → s.data.head? = some '\x60' →
        s.data.getLast? = some '\x60' → ∃ t, unquote_escape_raw s = some t) ∧
    (∀ s : String, 2 ≤ s.data.length →
        (s.data.head? = some '"' ∨ s.data.head? = some '\x27') →
        ∃ t, unquote_escape_literal s = some t) := by
  refine ⟨by decide, by decide, by decide, by decide, by decide, ?_, ?_⟩
  · intro s h _ _
    exact ⟨String.mk (replace2 '\\' '\x60' '\x60' ((s.data.drop 1).dropLast)),
      by simp only [unquote_escape_raw, if_pos h]⟩
  · intro s h hq
    have h2 : 2 ≤ (escape_chars s.data).length :=
      le_trans h (escape_chars_length_ge s.data)
    rcases hq with hq | hq <;>
      exact ⟨_, by simp only [unquote_escape_literal, hq, if_pos h2]; rfl⟩

/-- Witness for C10: a well-delimited raw token and a well-delimited literal
token each unescape without panicking. -/
theorem unescape_totality_witness :
    (∃ t, unquote_escape_raw "\x60a\x60" = some t) ∧
    (∃ t, unquote_escape_literal "\"a\"" = some t) :=
  ⟨unescape_totality.2.2.2.2.2.1 "\x60a\x60" (by decide) (by decide) (by decide),
   unescape_totality.2.2.2.2.2.2 "\"a\"" (by decide) (Or.inl (by decide))⟩

/-- Claim C6: expression narrowing maps `Atom` and `Symbol` through and fails
on every other node kind with a distinct named error: quantifier-in-quantifier
and skip-in-quantifier. -/
theorem narrow_expression_spec :
    (∀ t, narrow_expression (AlaniAstNode.Atom t) = Except.ok (Expression.Atom t)) ∧
    (∀ s, narrow_expression (AlaniAstNode.Symbol s) = Except.ok (Expression.Symbol s)) ∧
    (∀ q, narrow_expression (AlaniAstNode.Quantifier q) =
        Except.error CompilerError.UnexpectedQuantifierInQuantifier) ∧
    narrow_expression AlaniAstNode.Skip =
      Except.error CompilerError.UnexpectedSkippedNodeInQuantifier ∧
    (∀ n e, narrow_expression n = Except.error e →
        e = CompilerError.UnexpectedQuantifierInQuantifier ∨
        e = CompilerError.UnexpectedSkippedNodeInQuantifier) := by
  refine ⟨fun t => rfl, fun s => rfl, fun q => rfl, rfl, ?_⟩
  intro n e h
  cases n <;> simp [narrow_expression] at h <;> simp [h]

/-- Witness for C6: the error produced for a `Skip` operand is one of the two
named narrowing errors. -/
theorem narrow_expression_spec_witness :
    CompilerError.UnexpectedSkippedNodeInQuantifier =
      CompilerError.UnexpectedQuantifierInQuantifier ∨
    CompilerError.UnexpectedSkippedNodeInQuantifier =
      CompilerError.UnexpectedSkippedNodeInQuantifier :=
  narrow_expression_spec.2.2.2.2 AlaniAstNode.Skip
    CompilerError.UnexpectedSkippedNodeInQuantifier rfl

/-- Claim C4: a symbol token whose name is exactly start or end and whose
negation marker is present fails with the matching anchor-specific error,
regardless of the surrounding token. -/
theorem parse_symbol_negated_anchor (pair : Pair) (name : String)
    (h : first_last_inner_str pair = Except.ok (NOT, name)) :
    (name = "start" →
        parse_symbol pair = Except.error CompilerError.NegativeStartNotAllowed) ∧
    (name = "end" →
        parse_symbol pair = Except.error CompilerError.NegativeEndNotAllowed) := by
  constructor <;> intro hn <;> subst hn <;>
    (simp only [parse_symbol, h]; rfl)

/-- Witness for C4 at a concrete negated start token. -/
theorem parse_symbol_negated_anchor_witness :
    parse_symbol (Pair.mk Rule.symbol "not start"
        [Pair.mk Rule.symbol "not" [], Pair.mk Rule.symbol "start" []]) =
      Except.error CompilerError.NegativeStartNotAllowed :=
  (parse_symbol_negated_anchor
    (Pair.mk Rule.symbol "not start"
      [Pair.mk Rule.symbol "not" [], Pair.mk Rule.symbol "start" []])
    "start" rfl).1 rfl

/-- Claim C3: a symbol token whose name is one of the fifteen recognized
class names resolves to a `Symbol` node with the corresponding kind and with
`negated` equal to the presence of the negation marker; any other name —
apart from the negated anchors of C4, and including non-negated start and
end — fails with `UnrecognizedSymbol`. -/
theorem parse_symbol_table (pair : Pair) (marker name : String)
    (h : first_last_inner_str pair = Except.ok (marker, name)) :
    (∀ k : SymbolKind, (name, k) ∈ recognized_symbols →
        parse_symbol pair =
          Except.ok (AlaniAstNode.Symbol (Symbol.mk k (marker == NOT)))) ∧
    (name ∉ recognized_symbols.map Prod.fst →
        (marker = NOT → name ≠ "start" ∧ name ≠ "end") →
        parse_symbol pair = Except.error CompilerError.UnrecognizedSymbol) := by
  constructor
  · intro k hk
    fin_cases hk <;>
      (simp only [parse_symbol, h]
       cases hb : marker == NOT <;> rfl)
  · intro hmem hanch
    simp only [parse_symbol, h]
    by_cases hm : marker = NOT
    · obtain ⟨hs, he⟩ := hanch hm
      have hbs : (name == "start") = false := by
        simp [hs]
      have hbe : (name == "end") = false := by
        simp [he]
      simp only [hm, beq_self_eq_true, Bool.true_and, hbs, hbe, Bool.false_eq_true,
        if_false]
      split <;> simp_all [recognized_symbols]
    · have hb : (marker == NOT) = false := by
        simp [hm]
      simp only [hb, Bool.false_and, Bool.false_eq_true, if_false]
      split <;> simp_all [recognized_symbols]

/-- Witness for C3 at a concrete negated word token. -/
theorem parse_symbol_table_witness :
    parse_symbol (Pair.mk Rule.symbol "not word"
        [Pair.mk Rule.symbol "not" [], Pair.mk Rule.symbol "word" []]) =
      Except.ok (AlaniAstNode.Symbol (Symbol.mk SymbolKind.Word true)) :=
  (parse_symbol_table
    (Pair.mk Rule.symbol "not word"
      [Pair.mk Rule.symbol "not" [], Pair.mk Rule.symbol "word" []])
    "not" "word" rfl).1 SymbolKind.Word (by decide)

/-- Claim C7: any token whose rule tag is not raw, literal, symbol,
quantifier or end-of-input fails with `UnrecognizedSyntax`; raw and literal
tags produce `Atom` nodes via the unescapers, and end-of-input produces
`Skip`. -/
theorem create_ast_node_dispatch (pair : Pair) (env : Env) :
    (pair.rule ≠ Rule.raw ∧ pair.rule ≠ Rule.literal ∧ pair.rule ≠ Rule.symbol ∧
        pair.rule ≠ Rule.quantifier ∧ pair.rule ≠ Rule.EOI →
      create_ast_node env pair = Res.err CompilerError.UnrecognizedSyntax) ∧
    (pair.rule = Rule.raw → ∀ t, unquote_escape_raw pair.str = some t →
      create_ast_node env pair = Res.ok (AlaniAstNode.Atom t)) ∧
    (pair.rule = Rule.literal → ∀ t, unquote_escape_literal pair.str = some t →
      create_ast_node env pair = Res.ok (AlaniAstNode.Atom t)) ∧
    (pair.rule = Rule.EOI → create_ast_node env pair = Res.ok AlaniAstNode.Skip) := by
  cases pair with
  | mk r s inner =>
    refine ⟨?_, ?_, ?_, ?_⟩
    · intro hne
      simp only [Pair.rule] at hne
      cases r <;> simp_all [create_ast_node]
    · intro hr t ht
      simp only [Pair.rule] at hr
      subst hr
      simp only [Pair.str] at ht
      simp [create_ast_node, ht]
    · intro hr t ht
      simp only [Pair.rule] at hr
      subst hr
      simp only [Pair.str] at ht
      simp [create_ast_node, ht]
    · intro hr
      simp only [Pair.rule] at hr
      subst hr
      rfl

/-- Witness for C7: an unimplemented range token is rejected, and an
end-of-input token becomes `Skip`. -/
theorem create_ast_node_dispatch_witness :
    create_ast_node [] (Pair.mk Rule.range "0 to 9" []) =
      Res.err CompilerError.UnrecognizedSyntax ∧
    create_ast_node [] (Pair.mk Rule.EOI "" []) = Res.ok AlaniAstNode.Skip :=
  ⟨(create_ast_node_dispatch _ _).1 (by decide),
   (create_ast_node_dispatch _ _).2.2.2 rfl⟩

/-- Claim C5: a well-formed quantifier token whose quantified expression
narrows successfully yields a `Quantifier` node whose `lazy` field is true
exactly when the quantity sub-token's raw text begins with the lazy marker,
whose expression is the narrowed expression and whose kind is derived from
the kind sub-token; and the dispatcher's quantifier arm is exactly the
quantifier builder. -/
theorem parse_quantifier_spec (pair quantity kindTok lastp : Pair) (env : Env)
    (node : AlaniAstNode) (expr : Expression)
    (hr : pair.rule = Rule.quantifier)
    (hq : first_inner pair = Except.ok quantity)
    (hk : first_inner quantity = Except.ok kindTok)
    (hl : last_inner pair = Except.ok lastp)
    (hn : create_ast_node env lastp = Res.ok node)
    (hx : narrow_expression node = Except.ok expr) :
    parse_quantifier pair env =
      Res.ok (AlaniAstNode.Quantifier
        (Quantifier.mk (derive_quantifier_kind kindTok)
          (starts_with quantity.str LAZY) expr)) ∧
    create_ast_node env pair = parse_quantifier pair env := by
  refine ⟨?_, create_ast_node_quantifier_eq env pair hr⟩
  simp only [parse_quantifier, hq, hk, hl, hn, hx]

/-- Witness for C5 at a concrete lazy quantifier wrapping a literal atom. -/
theorem parse_quantifier_spec_witness :
    parse_quantifier witness_quantifier_tok [] =
      Res.ok (AlaniAstNode.Quantifier
        (Quantifier.mk QuantifierKind.Some true (Expression.Atom "ab"))) ∧
    create_ast_node [] witness_quantifier_tok =
      parse_quantifier witness_quantifier_tok [] :=
  parse_quantifier_spec witness_quantifier_tok witness_quantity_tok
    witness_kind_tok witness_literal_tok [] (AlaniAstNode.Atom "ab")
    (Expression.Atom "ab") rfl rfl rfl rfl rfl rfl

/-- Claim C2: a sequence of N tokens that each convert successfully yields a
`Root` with exactly N nodes, in source order. -/
theorem pairs_to_ast_preserves_count (ps : List Pair) (env : Env)
    (h : ∀ p ∈ ps, ∃ n, create_ast_node env p = Res.ok n) :
    ∃ ns : List AlaniAstNode,
      pairs_to_ast ps env = Res.ok (AlaniAst.Root ns) ∧
      ns.length = ps.length ∧
      ∀ i : Nat, ∀ hp : i < ps.length, ∀ hn : i < ns.length,
        create_ast_node env (ps.get ⟨i, hp⟩) = Res.ok (ns.get ⟨i, hn⟩) := by
  suffices hs : ∃ ns : List AlaniAstNode,
      pairs_to_nodes env ps = Res.ok ns ∧
      ns.length = ps.length ∧
      ∀ i : Nat, ∀ hp : i < ps.length, ∀ hn : i < ns.length,
        create_ast_node env (ps.get ⟨i, hp⟩) = Res.ok (ns.get ⟨i, hn⟩) by
    obtain ⟨ns, h1, h2, h3⟩ := hs
    exact ⟨ns, by simp only [pairs_to_ast, h1], h2, h3⟩
  induction ps with
  | nil => exact ⟨[], rfl, rfl, fun i hp _ => absurd hp (by simp)⟩
  | cons p ps ih =>
    obtain ⟨n, hn⟩ := h p (List.mem_cons_self p ps)
    obtain ⟨ns, h1, h2, h3⟩ := ih (fun q hq => h q (List.mem_cons_of_mem p hq))
    refine ⟨n :: ns, ?_, by simp [h2], ?_⟩
    · simp only [pairs_to_nodes, hn, h1]
    · intro i hp hm
      cases i with
      | zero => exact hn
      | succ j => exact h3 j (by simpa using hp) (by simpa using hm)

/-- Witness for C2 at a concrete two-token sequence. -/
theorem pairs_to_ast_preserves_count_witness :
    ∃ ns : List AlaniAstNode,
      pairs_to_ast
          [Pair.mk Rule.EOI "" [],
           Pair.mk Rule.symbol "word" [Pair.mk Rule.symbol "word" []]] [] =
        Res.ok (AlaniAst.Root ns) ∧
      ns.length =
        ([Pair.mk Rule.EOI "" [],
          Pair.mk Rule.symbol "word" [Pair.mk Rule.symbol "word" []]] :
            List Pair).length ∧
      ∀ i : Nat,
        ∀ hp : i < ([Pair.mk Rule.EOI "" [],
            Pair.mk Rule.symbol "word" [Pair.mk Rule.symbol "word" []]] :
              List Pair).length,
        ∀ hn : i < ns.length,
          create_ast_node []
              (([Pair.mk Rule.EOI "" [],
                 Pair.mk Rule.symbol "word" [Pair.mk Rule.symbol "word" []]] :
                    List Pair).get ⟨i, hp⟩) =
            Res.ok (ns.get ⟨i, hn⟩) :=
  pairs_to_ast_preserves_count _ []
    (by intro p hp
        fin_cases hp
        · exact ⟨AlaniAstNode.Skip, rfl⟩
        · exact ⟨AlaniAstNode.Symbol (Symbol.mk SymbolKind.Word false), rfl⟩)

/-- Claim C9: the empty source yields the `Empty` program without invoking
the token source, and a token source producing no top-level container makes
`to_ast` fail with `MissingRootNode`. -/
theorem to_ast_spec :
    (∀ tokenize : String → Except Unit (List Pair),
        to_ast tokenize "" = ToAstResult.ok AlaniAst.Empty) ∧
    (∀ tokenize : String → Except Unit (List Pair), ∀ source : String,
        source ≠ "" → tokenize source = Except.ok [] →
        to_ast tokenize source = ToAstResult.err CompilerError.MissingRootNode) := by
  constructor
  · intro tokenize
    rfl
  · intro tokenize source hs ht
    simp only [to_ast, if_neg hs, ht]
    rfl

/-- Witness for C9 with a concrete token source producing no top-level
container. -/
theorem to_ast_spec_witness :
    to_ast (fun _ => Except.ok []) "" = ToAstResult.ok AlaniAst.Empty ∧
    to_ast (fun _ => Except.ok []) "a" =
      ToAstResult.err CompilerError.MissingRootNode :=
  ⟨to_ast_spec.1 _, to_ast_spec.2 _ "a" (by decide) rfl⟩

end Alani
